import Mathlib

/-!
Verification of the transaction confirmation coordinator of the gswap SDK
(`gswap_sdk/tx_waiter.py` and the socket-facing front `gswap_sdk/events.py`).

The Python `TransactionWaiter` keeps a dict from transaction id to a mutable
`_PromiseInfo` object.  Waiters and notifiers share these objects by
reference: `notify_success` pops the dict entry but keeps mutating the popped
object, which a blocked waiter may still hold.  We model this aliasing with an
explicit heap: `WaiterState.heap` is the list of all `_PromiseInfo` objects
ever allocated, and the pending dict `WaiterState.promises` maps transaction
ids to heap indices.  Each Python method becomes a pure state transition;
the blocking `wait` is split into `wait_start` (the part up to and including
`event.wait()` being entered: look up the entry, mark `waited`, or raise
`TRANSACTION_ID_NOT_REGISTERED`) and `wait_finish` (the part after the event
is set: cancel the timer, raise the stored error or return the stored
result).  The per-entry `threading.Event` is the `eventSet` flag and the
pending `threading.Timer` is the `timerActive` flag.
-/

namespace GSwap

/-- A JSON-ish dictionary body, as used for the `Data` payload of a bundler
message and for error detail dictionaries. -/
abbrev DataBody := List (String × String)

/-- Embeds `GSwapSDKError` from `gswap_sdk/errors.py`: a message, a machine
readable code, and a details dictionary. -/
structure GSwapSDKError where
  message : String
  code : String
  details : List (String × String)
deriving DecidableEq, Repr

/-- A bundler message dictionary as consumed by `notify_success` and
`notify_failure`: the optional `transactionId` key, the optional `Data` key,
and the remaining keys. -/
structure MsgData where
  transactionId : Option String
  dataField : Option DataBody
  rest : List (String × String)
deriving DecidableEq, Repr

/-- The result dictionary built by the waiter:
`{"txId": ..., "transactionHash": ..., "Data": ...}`. -/
structure TxResult where
  txId : String
  transactionHash : String
  dataBody : DataBody
deriving DecidableEq, Repr

/-- Embeds `_PromiseInfo` from `gswap_sdk/tx_waiter.py`.  `eventSet` is the
state of the `threading.Event`; `timerActive` records whether the
`threading.Timer` is scheduled and not yet cancelled or fired. -/
structure PromiseInfo where
  eventSet : Bool := false
  waited : Bool := false
  result : Option TxResult := none
  error : Option GSwapSDKError := none
  timerActive : Bool := false
deriving DecidableEq, Repr

/-- The state of a `TransactionWaiter`: the `_enabled` flag, the heap of all
allocated `_PromiseInfo` objects, and the `_promises` dict mapping each
pending transaction id to the heap index of its info object. -/
structure WaiterState where
  enabled : Bool := false
  heap : List PromiseInfo := []
  promises : List (String × Nat) := []
deriving DecidableEq, Repr

/-- `TransactionWaiter.__init__`: disabled, no promises. -/
def initState : WaiterState := { enabled := false, heap := [], promises := [] }

/-- Dictionary lookup on the pending map (Python `dict.get`). -/
def mapLookup (k : String) : List (String × Nat) → Option Nat
  | [] => none
  | (k2, v) :: rest => if k2 = k then some v else mapLookup k rest

/-- Dictionary removal on the pending map (Python `dict.pop`). -/
def mapErase (k : String) : List (String × Nat) → List (String × Nat)
  | [] => []
  | (k2, v) :: rest => if k2 = k then mapErase k rest else (k2, v) :: mapErase k rest

/-- Mutate the heap cell at index `r` in place; a no-op when `r` is out of
range (which never happens for indices obtained from the pending map). -/
def heapModify (r : Nat) (f : PromiseInfo → PromiseInfo) (h : List PromiseInfo) :
    List PromiseInfo :=
  match h.get? r with
  | some info => h.set r (f info)
  | none => h

/-- `GSwapSDKError` raised by `register_tx_id` on a duplicate id. -/
def errorAlreadyRegistered (txId : String) : GSwapSDKError :=
  { message := "Transaction ID is already registered"
    code := "TRANSACTION_ID_ALREADY_REGISTERED"
    details := [("txId", txId)] }

/-- `GSwapSDKError` raised by `wait` when no pending entry exists. -/
def errorNotRegistered (txId : String) : GSwapSDKError :=
  { message := "Transaction ID is not registered for waiting"
    code := "TRANSACTION_ID_NOT_REGISTERED"
    details := [("txId", txId)] }

/-- `GSwapSDKError` raised by `wait` when the event is set but neither an
error nor a result was stored. -/
def errorNoResult (txId : String) : GSwapSDKError :=
  { message := "Transaction wait completed without a result"
    code := "TRANSACTION_WAIT_NO_RESULT"
    details := [("txId", txId)] }

/-- `GSwapSDKError.transaction_wait_timeout_error` from `errors.py`. -/
def transaction_wait_timeout_error (txId : String) : GSwapSDKError :=
  { message := "Transaction wait timed out."
    code := "TRANSACTION_WAIT_TIMEOUT"
    details := [("tx_id", txId)] }

/-- `GSwapSDKError.transaction_wait_failed_error` from `errors.py`:
`transaction_hash` is taken from the detail's `transactionId` key and the
remaining detail keys are spliced into the details dictionary. -/
def transaction_wait_failed_error (txId : String) (detail : MsgData) : GSwapSDKError :=
  { message := "Transaction wait failed."
    code := "TRANSACTION_WAIT_FAILED"
    details :=
      ("tx_id", txId) ::
        (match detail.transactionId with
          | some h => [("transaction_hash", h)]
          | none => []) ++ detail.rest }

/-- `GSwapSDKError.socket_connection_required_error` from `errors.py`. -/
def socket_connection_required_error : GSwapSDKError :=
  { message := "This method requires a socket connection. Did you call connect_socket()?"
    code := "SOCKET_CONNECTION_REQUIRED"
    details := [] }

/-- The detail dictionary `{"message": "Transaction waiter disabled"}` used by
`set_enabled(False)`. -/
def disabledDetail : MsgData :=
  { transactionId := none, dataField := none
    rest := [("message", "Transaction waiter disabled")] }

/-- How `set_enabled(False)` resolves one pending entry: cancel its timer,
store the disabled failure, set its event. -/
def resolveDisabled (txId : String) (info : PromiseInfo) : PromiseInfo :=
  { info with
    timerActive := false
    error := some (transaction_wait_failed_error txId disabledDetail)
    eventSet := true }

/-- The shape `set_enabled(False)` leaves every formerly pending info object
in: timer cancelled, event set, and a stored failure error. -/
def DisabledShape (i : PromiseInfo) : Prop :=
  i.timerActive = false ∧ i.eventSet = true ∧
    ∃ e, i.error = some e ∧ e.code = "TRANSACTION_WAIT_FAILED"

/-- The loop body of `set_enabled(False)`: resolve each pending entry in
turn on the heap. -/
def resolveAllDisabled (es : List (String × Nat)) (h : List PromiseInfo) :
    List PromiseInfo :=
  es.foldl (fun hh p => heapModify p.2 (resolveDisabled p.1) hh) h

/-- `TransactionWaiter.set_enabled`: on disabling, every pending entry's
timer is cancelled, its error is set to the disabled failure, its event is
set, and the pending map is cleared. -/
def set_enabled (e : Bool) (s : WaiterState) : WaiterState :=
  if e then { s with enabled := true }
  else
    { enabled := false
      heap := resolveAllDisabled s.promises s.heap
      promises := [] }

/-- `TransactionWaiter.register_tx_id`: raises on a duplicate id, is a no-op
while disabled, and otherwise allocates a fresh `_PromiseInfo` with a running
timer and stores it in the pending map.  The first component is the raised
exception, if any; the second the state after the call. -/
def register_tx_id (txId : String) (_timeout_ms : Int) (s : WaiterState) :
    Option GSwapSDKError × WaiterState :=
  match mapLookup txId s.promises with
  | some _ => (some (errorAlreadyRegistered txId), s)
  | none =>
    if s.enabled then
      (none,
        { s with
          heap := s.heap ++ [{ timerActive := true }]
          promises := (txId, s.heap.length) :: s.promises })
    else (none, s)

/-- How the timer callback `on_timeout` resolves the entry it popped: a
timeout error when a waiter is attached, otherwise the synthetic
accepted-success payload `{"txId": txId, "transactionHash": txId, "Data": {}}`. -/
def timeoutResolve (txId : String) (stored : PromiseInfo) : PromiseInfo :=
  if stored.waited then
    { stored with
      error := some (transaction_wait_timeout_error txId)
      eventSet := true }
  else
    { stored with
      result := some { txId := txId, transactionHash := txId, dataBody := [] }
      eventSet := true }

/-- The timer callback `on_timeout` defined inside `register_tx_id`: pop the
entry for the captured id (a no-op when it is gone), then resolve it. -/
def on_timeout (txId : String) (s : WaiterState) : WaiterState :=
  match mapLookup txId s.promises with
  | none => s
  | some r =>
    { s with
      promises := mapErase txId s.promises
      heap := heapModify r (timeoutResolve txId) s.heap }

/-- How `notify_success` resolves the entry it popped: cancel the timer and
store the success payload derived from the notification data. -/
def successResolve (txId : String) (data : MsgData) (info : PromiseInfo) : PromiseInfo :=
  { info with
    timerActive := false
    result := some
      { txId := txId
        transactionHash := data.transactionId.getD txId
        dataBody := data.dataField.getD [] }
    eventSet := true }

/-- `TransactionWaiter.notify_success`: pop the entry (a no-op when absent),
cancel its timer, store the success payload, set its event. -/
def notify_success (txId : String) (data : MsgData) (s : WaiterState) : WaiterState :=
  match mapLookup txId s.promises with
  | none => s
  | some r =>
    { s with
      promises := mapErase txId s.promises
      heap := heapModify r (successResolve txId data) s.heap }

/-- How `notify_failure` resolves the entry it popped: a failure carrying the
detail when a waiter is attached, otherwise the synthetic accepted-success
payload. -/
def failureResolve (txId : String) (detail : MsgData) (info : PromiseInfo) : PromiseInfo :=
  if info.waited then
    { info with
      timerActive := false
      error := some (transaction_wait_failed_error txId detail)
      eventSet := true }
  else
    { info with
      timerActive := false
      result := some { txId := txId, transactionHash := txId, dataBody := [] }
      eventSet := true }

/-- `TransactionWaiter.notify_failure`: pop the entry (a no-op when absent),
cancel its timer, resolve it, set its event. -/
def notify_failure (txId : String) (detail : MsgData) (s : WaiterState) : WaiterState :=
  match mapLookup txId s.promises with
  | none => s
  | some r =>
    { s with
      promises := mapErase txId s.promises
      heap := heapModify r (failureResolve txId detail) s.heap }

/-- The immediate outcome of entering `TransactionWaiter.wait`: either the
`TRANSACTION_ID_NOT_REGISTERED` exception raised before blocking, or the heap
index of the entry the caller is now blocked on. -/
inductive WaitStart where
  | failed (e : GSwapSDKError)
  | blocked (r : Nat)
deriving DecidableEq, Repr

/-- The first half of `TransactionWaiter.wait`, up to `event.wait()`: raise
when no pending entry exists, otherwise mark the entry as waited and block
on its event. -/
def wait_start (txId : String) (s : WaiterState) : WaitStart × WaiterState :=
  match mapLookup txId s.promises with
  | none => (.failed (errorNotRegistered txId), s)
  | some r =>
    (.blocked r,
      { s with heap := heapModify r (fun info => { info with waited := true }) s.heap })

/-- The second half of `TransactionWaiter.wait`, run after the entry's event
is set: cancel any leftover timer, then raise the stored error, raise
`TRANSACTION_WAIT_NO_RESULT` when nothing was stored, or return the stored
result. -/
def wait_finish (txId : String) (r : Nat) (s : WaiterState) :
    Except GSwapSDKError TxResult × WaiterState :=
  match s.heap.get? r with
  | none => (.error (errorNoResult txId), s)
  | some info =>
    let s2 : WaiterState :=
      { s with heap := heapModify r (fun i => { i with timerActive := false }) s.heap }
    match info.error with
    | some e => (.error e, s2)
    | none =>
      match info.result with
      | some res => (.ok res, s2)
      | none => (.error (errorNoResult txId), s2)

/-- One atomic transition of the coordinator: any method call, or the timer
callback firing. -/
inductive Step : WaiterState → WaiterState → Prop where
  | setEnabled (e : Bool) (s : WaiterState) : Step s (set_enabled e s)
  | reg (txId : String) (t : Int) (s : WaiterState) : Step s (register_tx_id txId t s).2
  | waitStart (txId : String) (s : WaiterState) : Step s (wait_start txId s).2
  | waitFinish (txId : String) (r : Nat) (s : WaiterState) : Step s (wait_finish txId r s).2
  | notifySuccess (txId : String) (d : MsgData) (s : WaiterState) :
      Step s (notify_success txId d s)
  | notifyFailure (txId : String) (d : MsgData) (s : WaiterState) :
      Step s (notify_failure txId d s)
  | fire (txId : String) (s : WaiterState) : Step s (on_timeout txId s)

/-- The coordinator states reachable from a fresh `TransactionWaiter`. -/
inductive Reachable : WaiterState → Prop where
  | init : Reachable initState
  | step {s s2 : WaiterState} : Reachable s → Step s s2 → Reachable s2

/-- The coordinator invariant: (1) while disabled the pending map is empty;
(2) distinct pending ids own distinct info objects; (3) every pending entry's
info object exists and is unresolved with its event unset; (4) an info object
whose event is set carries an error or a result; (5) no stored error carries
the `TRANSACTION_WAIT_NO_RESULT` code. -/
def Inv (s : WaiterState) : Prop :=
  (s.enabled = false → s.promises = []) ∧
  (∀ p q, p ∈ s.promises → q ∈ s.promises → p.2 = q.2 → p.1 = q.1) ∧
  (∀ p, p ∈ s.promises →
    ∃ i, s.heap.get? p.2 = some i ∧ i.eventSet = false ∧ i.error = none ∧ i.result = none) ∧
  (∀ r i, s.heap.get? r = some i → i.eventSet = true → (i.error.isSome ∨ i.result.isSome)) ∧
  (∀ r i e, s.heap.get? r = some i → i.error = some e → e.code ≠ "TRANSACTION_WAIT_NO_RESULT")

/-- An event transport, specified at its interface boundary:
`is_connected()` is all the waiter front consults. -/
structure SocketClient where
  connected : Bool
deriving DecidableEq, Repr

/-- The state of the `Events` singleton from `gswap_sdk/events.py`: the
optional global socket client and the global `TransactionWaiter`. -/
structure EventsState where
  globalSocketClient : Option SocketClient
  globalWaitHelper : WaiterState
deriving DecidableEq, Repr

/-- `Events.event_socket_connected`: true when a client exists and reports
itself connected. -/
def event_socket_connected (s : EventsState) : Bool :=
  match s.globalSocketClient with
  | none => false
  | some c => c.connected

/-- The entry of `Events.wait`: raise `SOCKET_CONNECTION_REQUIRED` when no
transport is connected, before consulting the waiter; otherwise delegate to
`TransactionWaiter.wait` (its non-blocking first half). -/
def events_wait_start (txId : String) (s : EventsState) : WaitStart × EventsState :=
  if event_socket_connected s then
    let ws := wait_start txId s.globalWaitHelper
    (ws.1, { s with globalWaitHelper := ws.2 })
  else
    (.failed socket_connection_required_error, s)

/-- A concrete enabled coordinator with no pending entries. -/
def exEnabled : WaiterState := set_enabled true initState

/-- A concrete coordinator with one pending entry for id tx1. -/
def exRegistered : WaiterState := (register_tx_id "tx1" 50 exEnabled).2

/-- A concrete notification payload carrying a transaction hash and a data
body. -/
def exData : MsgData :=
  { transactionId := some "h1", dataField := some [("amount", "5")], rest := [] }

/-- The concrete coordinator after tx1 was notified successfully with no
waiter attached: the entry is retired. -/
def exNotified : WaiterState := notify_success "tx1" exData exRegistered

/-- The concrete coordinator after a waiter blocked on the pending tx1
entry. -/
def exWaited : WaiterState := (wait_start "tx1" exRegistered).2

/-- The concrete coordinator after disabling while tx1 was still pending. -/
def exDisabled : WaiterState := set_enabled false exRegistered

/-! ### Helper lemmas about the pending map and the heap -/

theorem mapLookup_erase_self (k : String) (m : List (String × Nat)) :
    mapLookup k (mapErase k m) = none := by
  induction m with
  | nil => rfl
  | cons p rest ih =>
    obtain ⟨k2, v⟩ := p
    by_cases hk : k2 = k
    · simp [mapErase, hk, ih]
    · simp [mapErase, mapLookup, hk, ih]

theorem mapLookup_erase_ne {t k : String} (h : t ≠ k) (m : List (String × Nat)) :
    mapLookup t (mapErase k m) = mapLookup t m := by
  induction m with
  | nil => rfl
  | cons p rest ih =>
    obtain ⟨k2, v⟩ := p
    simp only [mapErase, mapLookup]
    by_cases hk : k2 = k
    · rw [if_pos hk, ih, if_neg]
      intro hE
      exact h (by rw [← hE, hk])
    · rw [if_neg hk]
      simp only [mapLookup]
      rw [ih]

theorem mem_mapErase {p : String × Nat} {k : String} {m : List (String × Nat)}
    (h : p ∈ mapErase k m) : p ∈ m ∧ p.1 ≠ k := by
  induction m with
  | nil => simp [mapErase] at h
  | cons q rest ih =>
    obtain ⟨k2, v⟩ := q
    by_cases hk : k2 = k
    · simp only [mapErase, if_pos hk] at h
      obtain ⟨hm, hne⟩ := ih h
      exact ⟨List.mem_cons_of_mem _ hm, hne⟩
    · simp only [mapErase, if_neg hk] at h
      rcases List.mem_cons.mp h with hEq | hm
      · refine ⟨List.mem_cons.mpr (Or.inl hEq), ?_⟩
        rw [hEq]
        exact hk
      · obtain ⟨hm2, hne⟩ := ih hm
        exact ⟨List.mem_cons_of_mem _ hm2, hne⟩

theorem mapLookup_mem {k : String} {r : Nat} {m : List (String × Nat)}
    (h : mapLookup k m = some r) : (k, r) ∈ m := by
  induction m with
  | nil => simp [mapLookup] at h
  | cons q rest ih =>
    obtain ⟨k2, v⟩ := q
    by_cases hk : k2 = k
    · simp only [mapLookup, if_pos hk] at h
      cases h
      rw [← hk]
      exact List.mem_cons_self _ _
    · simp only [mapLookup, if_neg hk] at h
      exact List.mem_cons_of_mem _ (ih h)

theorem get?_set_self {α : Type} {l : List α} {r : Nat} {b : α} (a : α)
    (h : l.get? r = some b) : (l.set r a).get? r = some a := by
  induction l generalizing r with
  | nil => simp [List.get?] at h
  | cons x xs ih =>
    cases r with
    | zero => rfl
    | succ n => exact ih h

theorem get?_set_ne {α : Type} {l : List α} {r j : Nat} (a : α) (h : j ≠ r) :
    (l.set r a).get? j = l.get? j := by
  induction l generalizing r j with
  | nil => rfl
  | cons x xs ih =>
    cases r with
    | zero =>
      cases j with
      | zero => exact absurd rfl h
      | succ n => rfl
    | succ m =>
      cases j with
      | zero => rfl
      | succ n => exact ih (fun hE => h (by rw [hE]))

theorem get?_some_lt {α : Type} {l : List α} {r : Nat} {a : α}
    (h : l.get? r = some a) : r < l.length := by
  by_contra hlt
  rw [List.get?_eq_none.mpr (Nat.le_of_not_lt hlt)] at h
  cases h

theorem get?_append_left {α : Type} {l1 l2 : List α} {r : Nat}
    (h : r < l1.length) : (l1 ++ l2).get? r = l1.get? r := by
  induction l1 generalizing r with
  | nil => simp at h
  | cons x xs ih =>
    cases r with
    | zero => rfl
    | succ n => exact ih (Nat.lt_of_succ_lt_succ h)

theorem get?_concat_self {α : Type} (l : List α) (a : α) :
    (l ++ [a]).get? l.length = some a := by
  induction l with
  | nil => rfl
  | cons x xs ih => exact ih

theorem heapModify_get?_eq {h : List PromiseInfo} {r : Nat} {i : PromiseInfo}
    (f : PromiseInfo → PromiseInfo) (hg : h.get? r = some i) :
    (heapModify r f h).get? r = some (f i) := by
  unfold heapModify
  rw [hg]
  exact get?_set_self (f i) hg

theorem heapModify_get?_ne {h : List PromiseInfo} {r j : Nat}
    (f : PromiseInfo → PromiseInfo) (hne : j ≠ r) :
    (heapModify r f h).get? j = h.get? j := by
  unfold heapModify
  cases hg : h.get? r with
  | none => rfl
  | some i => exact get?_set_ne (f i) hne

theorem heapModify_isSome {h : List PromiseInfo} {r j : Nat}
    (f : PromiseInfo → PromiseInfo) (hs : (h.get? j).isSome) :
    ((heapModify r f h).get? j).isSome := by
  by_cases hje : j = r
  · subst hje
    cases hg : h.get? j with
    | none => rw [hg] at hs; cases hs
    | some i => rw [heapModify_get?_eq f hg]; rfl
  · rw [heapModify_get?_ne f hje]
    exact hs

theorem heapModify_none {h : List PromiseInfo} {r : Nat}
    (f : PromiseInfo → PromiseInfo) (hg : h.get? r = none) : heapModify r f h = h := by
  unfold heapModify
  rw [hg]

theorem resolveDisabled_shape (t : String) (i : PromiseInfo) :
    DisabledShape (resolveDisabled t i) :=
  ⟨rfl, rfl, transaction_wait_failed_error t disabledDetail, rfl, rfl⟩

theorem resolveAllDisabled_get?_cases (es : List (String × Nat)) :
    ∀ (h : List PromiseInfo) (r : Nat),
      (resolveAllDisabled es h).get? r = h.get? r ∨
      ∃ t i, (resolveAllDisabled es h).get? r = some (resolveDisabled t i) := by
  induction es with
  | nil =>
    intro h r
    exact Or.inl rfl
  | cons p rest ih =>
    intro h r
    have hstep : resolveAllDisabled (p :: rest) h
        = resolveAllDisabled rest (heapModify p.2 (resolveDisabled p.1) h) := rfl
    rw [hstep]
    rcases ih (heapModify p.2 (resolveDisabled p.1) h) r with hcase | hcase
    · rw [hcase]
      by_cases hr : r = p.2
      · cases hg : h.get? p.2 with
        | none =>
          left
          rw [hr, heapModify_none _ hg]
        | some i =>
          right
          rw [hr]
          exact ⟨p.1, i, heapModify_get?_eq _ hg⟩
      · left
        exact heapModify_get?_ne _ hr
    · right
      exact hcase

theorem resolveAllDisabled_mem (es : List (String × Nat)) :
    ∀ (h : List PromiseInfo) (t : String) (r : Nat),
      (t, r) ∈ es → (h.get? r).isSome →
      ∃ i2, (resolveAllDisabled es h).get? r = some i2 ∧ DisabledShape i2 := by
  induction es with
  | nil =>
    intro h t r hmem
    cases hmem
  | cons p rest ih =>
    intro h t r hmem hs
    have hstep : resolveAllDisabled (p :: rest) h
        = resolveAllDisabled rest (heapModify p.2 (resolveDisabled p.1) h) := rfl
    rw [hstep]
    rcases List.mem_cons.mp hmem with hEq | hmem2
    · have hr : p.2 = r := by rw [← hEq]
      obtain ⟨i, hgi⟩ := Option.isSome_iff_exists.mp hs
      have hcell : (heapModify p.2 (resolveDisabled p.1) h).get? r
          = some (resolveDisabled p.1 i) := by
        rw [hr]
        exact heapModify_get?_eq _ hgi
      rcases resolveAllDisabled_get?_cases rest
          (heapModify p.2 (resolveDisabled p.1) h) r with hc | hc
      · rw [hc, hcell]
        exact ⟨resolveDisabled p.1 i, rfl, resolveDisabled_shape _ _⟩
      · obtain ⟨t2, i2, hc⟩ := hc
        exact ⟨resolveDisabled t2 i2, hc, resolveDisabled_shape _ _⟩
    · exact ih _ t r hmem2 (heapModify_isSome _ hs)

/-! ### Preservation of the coordinator invariant -/

theorem inv_init : Inv initState := by
  refine ⟨fun _ => rfl, ?_, ?_, ?_, ?_⟩
  · intro p q hp
    cases hp
  · intro p hp
    cases hp
  · intro r i hg
    cases hg
  · intro r i e hg
    cases hg

theorem inv_set_enabled {s : WaiterState} (e : Bool) (hInv : Inv s) :
    Inv (set_enabled e s) := by
  obtain ⟨h1, h2, h3, h4, h5⟩ := hInv
  cases e with
  | true =>
    refine ⟨?_, h2, h3, h4, h5⟩
    intro hd
    simp [set_enabled] at hd
  | false =>
    refine ⟨fun _ => rfl, ?_, ?_, ?_, ?_⟩
    · intro p q hp
      cases hp
    · intro p hp
      cases hp
    · intro r i hg he
      rcases resolveAllDisabled_get?_cases s.promises s.heap r with hc | hc
    --  the cell is the original or a disabled-resolved one
      · rw [show (set_enabled false s).heap = resolveAllDisabled s.promises s.heap from rfl,
          hc] at hg
        exact h4 r i hg he
      · obtain ⟨t, i0, hc⟩ := hc
        rw [show (set_enabled false s).heap = resolveAllDisabled s.promises s.heap from rfl,
          hc] at hg
        cases hg
        obtain ⟨_, _, e0, he0, _⟩ := resolveDisabled_shape t i0
        left
        rw [he0]
        rfl
    · intro r i e2 hg herr
      rcases resolveAllDisabled_get?_cases s.promises s.heap r with hc | hc
      · rw [show (set_enabled false s).heap = resolveAllDisabled s.promises s.heap from rfl,
          hc] at hg
        exact h5 r i e2 hg herr
      · obtain ⟨t, i0, hc⟩ := hc
        rw [show (set_enabled false s).heap = resolveAllDisabled s.promises s.heap from rfl,
          hc] at hg
        cases hg
        obtain ⟨_, _, e0, he0, hcode⟩ := resolveDisabled_shape t i0
        rw [he0] at herr
        cases herr
        rw [hcode]
        decide

theorem inv_register {s : WaiterState} (txId : String) (t : Int) (hInv : Inv s) :
    Inv (register_tx_id txId t s).2 := by
  obtain ⟨h1, h2, h3, h4, h5⟩ := hInv
  unfold register_tx_id
  cases hlk : mapLookup txId s.promises with
  | some r =>
    exact ⟨h1, h2, h3, h4, h5⟩
  | none =>
    cases hen : s.enabled with
    | false =>
      simp only [hen, if_false]
      exact ⟨h1, h2, h3, h4, h5⟩
    | true =>
      simp only [hen, if_true]
      refine ⟨?_, ?_, ?_, ?_, ?_⟩
      · intro hd
        cases hd
      · intro p q hp hq hpq
        rcases List.mem_cons.mp hp with hpE | hpM <;>
          rcases List.mem_cons.mp hq with hqE | hqM
        · rw [hpE, hqE]
        · obtain ⟨iq, hgq, _⟩ := h3 q hqM
          have hlt : q.2 < s.heap.length := get?_some_lt hgq
          rw [hpE] at hpq
          rw [← hpq] at hlt
          exact absurd hlt (Nat.lt_irrefl _)
        · obtain ⟨ip, hgp, _⟩ := h3 p hpM
          have hlt : p.2 < s.heap.length := get?_some_lt hgp
          rw [hqE] at hpq
          rw [hpq] at hlt
          exact absurd hlt (Nat.lt_irrefl _)
        · exact h2 p q hpM hqM hpq
      · intro p hp
        rcases List.mem_cons.mp hp with hpE | hpM
        · refine ⟨{ timerActive := true }, ?_, rfl, rfl, rfl⟩
          rw [hpE]
          exact get?_concat_self s.heap _
        · obtain ⟨ip, hgp, hep, herp, hresp⟩ := h3 p hpM
          refine ⟨ip, ?_, hep, herp, hresp⟩
          rw [get?_append_left (get?_some_lt hgp)]
          exact hgp
      · intro r i hg he
        by_cases hlt : r < s.heap.length
        · rw [get?_append_left hlt] at hg
          exact h4 r i hg he
        · have hr : r = s.heap.length := by
            have hub : r < s.heap.length + 1 := by
              have := get?_some_lt hg
              simpa using this
            omega
          rw [hr, get?_concat_self] at hg
          cases hg
          cases he
      · intro r i e2 hg herr
        by_cases hlt : r < s.heap.length
        · rw [get?_append_left hlt] at hg
          exact h5 r i e2 hg herr
        · have hr : r = s.heap.length := by
            have hub : r < s.heap.length + 1 := by
              have := get?_some_lt hg
              simpa using this
            omega
          rw [hr, get?_concat_self] at hg
          cases hg
          cases herr

theorem inv_modify_preserving {s : WaiterState} {r : Nat} (hInv : Inv s)
    (f : PromiseInfo → PromiseInfo)
    (hf : ∀ i, (f i).eventSet = i.eventSet ∧ (f i).error = i.error ∧
      (f i).result = i.result) :
    Inv { s with heap := heapModify r f s.heap } := by
  obtain ⟨h1, h2, h3, h4, h5⟩ := hInv
  refine ⟨h1, h2, ?_, ?_, ?_⟩
  · intro p hp
    obtain ⟨ip, hgp, hep, herp, hresp⟩ := h3 p hp
    by_cases hpr : p.2 = r
    · rw [hpr] at hgp
      refine ⟨f ip, ?_, ?_, ?_, ?_⟩
      · rw [show ({ s with heap := heapModify r f s.heap } : WaiterState).heap
            = heapModify r f s.heap from rfl, hpr]
        exact heapModify_get?_eq f hgp
      · rw [(hf ip).1]
        exact hep
      · rw [(hf ip).2.1]
        exact herp
      · rw [(hf ip).2.2]
        exact hresp
    · refine ⟨ip, ?_, hep, herp, hresp⟩
      rw [show ({ s with heap := heapModify r f s.heap } : WaiterState).heap
          = heapModify r f s.heap from rfl, heapModify_get?_ne f hpr]
      exact hgp
  · intro r2 i hg he
    by_cases hr2 : r2 = r
    · subst hr2
      cases hg0 : s.heap.get? r2 with
      | none =>
        rw [show ({ s with heap := heapModify r2 f s.heap } : WaiterState).heap
            = heapModify r2 f s.heap from rfl, heapModify_none f hg0] at hg
        exact h4 r2 i hg he
      | some i0 =>
        rw [show ({ s with heap := heapModify r2 f s.heap } : WaiterState).heap
            = heapModify r2 f s.heap from rfl, heapModify_get?_eq f hg0] at hg
        cases hg
        rw [(hf i0).1] at he
        rw [(hf i0).2.1, (hf i0).2.2]
        exact h4 r2 i0 hg0 he
    · rw [show ({ s with heap := heapModify r f s.heap } : WaiterState).heap
          = heapModify r f s.heap from rfl, heapModify_get?_ne f hr2] at hg
      exact h4 r2 i hg he
  · intro r2 i e2 hg herr
    by_cases hr2 : r2 = r
    · subst hr2
      cases hg0 : s.heap.get? r2 with
      | none =>
        rw [show ({ s with heap := heapModify r2 f s.heap } : WaiterState).heap
            = heapModify r2 f s.heap from rfl, heapModify_none f hg0] at hg
        exact h5 r2 i e2 hg herr
      | some i0 =>
        rw [show ({ s with heap := heapModify r2 f s.heap } : WaiterState).heap
            = heapModify r2 f s.heap from rfl, heapModify_get?_eq f hg0] at hg
        cases hg
        rw [(hf i0).2.1] at herr
        exact h5 r2 i0 e2 hg0 herr
    · rw [show ({ s with heap := heapModify r f s.heap } : WaiterState).heap
          = heapModify r f s.heap from rfl, heapModify_get?_ne f hr2] at hg
      exact h5 r2 i e2 hg herr

theorem failed_code (txId : String) (d : MsgData) :
    (transaction_wait_failed_error txId d).code = "TRANSACTION_WAIT_FAILED" := rfl

theorem timeout_code (txId : String) :
    (transaction_wait_timeout_error txId).code = "TRANSACTION_WAIT_TIMEOUT" := rfl

theorem inv_pop_resolve {s : WaiterState} {txId : String} {r : Nat} (hInv : Inv s)
    (hlk : mapLookup txId s.promises = some r) (f : PromiseInfo → PromiseInfo)
    (hf : ∀ i, i.eventSet = false → i.error = none → i.result = none →
      ((f i).error.isSome ∨ (f i).result.isSome) ∧
      (∀ e, (f i).error = some e → e.code ≠ "TRANSACTION_WAIT_NO_RESULT")) :
    Inv { s with promises := mapErase txId s.promises,
                 heap := heapModify r f s.heap } := by
  obtain ⟨h1, h2, h3, h4, h5⟩ := hInv
  have hmem : (txId, r) ∈ s.promises := mapLookup_mem hlk
  obtain ⟨i0, hg00, he0, her0, hres0⟩ := h3 (txId, r) hmem
  have hg0 : s.heap.get? r = some i0 := hg00
  refine ⟨?_, ?_, ?_, ?_, ?_⟩
  · intro hd
    rw [h1 hd] at hlk
    cases hlk
  · intro p q hp hq hpq
    obtain ⟨hpm, _⟩ := mem_mapErase hp
    obtain ⟨hqm, _⟩ := mem_mapErase hq
    exact h2 p q hpm hqm hpq
  · intro p hp
    obtain ⟨hpm, hpne⟩ := mem_mapErase hp
    obtain ⟨ip, hgp, hep, herp, hresp⟩ := h3 p hpm
    have hpr : p.2 ≠ r := by
      intro hE
      exact hpne (h2 p (txId, r) hpm hmem hE)
    refine ⟨ip, ?_, hep, herp, hresp⟩
    show (heapModify r f s.heap).get? p.2 = some ip
    rw [heapModify_get?_ne f hpr]
    exact hgp
  · intro r2 i hg he
    have hg2 : (heapModify r f s.heap).get? r2 = some i := hg
    by_cases hr2 : r2 = r
    · subst hr2
      rw [heapModify_get?_eq f hg0] at hg2
      cases hg2
      exact (hf i0 he0 her0 hres0).1
    · rw [heapModify_get?_ne f hr2] at hg2
      exact h4 r2 i hg2 he
  · intro r2 i e2 hg herr
    have hg2 : (heapModify r f s.heap).get? r2 = some i := hg
    by_cases hr2 : r2 = r
    · subst hr2
      rw [heapModify_get?_eq f hg0] at hg2
      cases hg2
      exact (hf i0 he0 her0 hres0).2 e2 herr
    · rw [heapModify_get?_ne f hr2] at hg2
      exact h5 r2 i e2 hg2 herr

theorem inv_notify_success {s : WaiterState} (txId : String) (d : MsgData)
    (hInv : Inv s) : Inv (notify_success txId d s) := by
  unfold notify_success
  cases hlk : mapLookup txId s.promises with
  | none => exact hInv
  | some r =>
    refine inv_pop_resolve hInv hlk (successResolve txId d) ?_
    intro i _ her _
    refine ⟨Or.inr rfl, ?_⟩
    intro e hE
    rw [show (successResolve txId d i).error = i.error from rfl, her] at hE
    cases hE

theorem inv_notify_failure {s : WaiterState} (txId : String) (d : MsgData)
    (hInv : Inv s) : Inv (notify_failure txId d s) := by
  unfold notify_failure
  cases hlk : mapLookup txId s.promises with
  | none => exact hInv
  | some r =>
    refine inv_pop_resolve hInv hlk (failureResolve txId d) ?_
    intro i _ her _
    cases hw : i.waited with
    | true =>
      refine ⟨Or.inl ?_, ?_⟩
      · simp [failureResolve, hw]
      · intro e hE
        simp [failureResolve, hw] at hE
        rw [← hE, failed_code]
        decide
    | false =>
      refine ⟨Or.inr ?_, ?_⟩
      · simp [failureResolve, hw]
      · intro e hE
        simp [failureResolve, hw, her] at hE

theorem inv_on_timeout {s : WaiterState} (txId : String) (hInv : Inv s) :
    Inv (on_timeout txId s) := by
  unfold on_timeout
  cases hlk : mapLookup txId s.promises with
  | none => exact hInv
  | some r =>
    refine inv_pop_resolve hInv hlk (timeoutResolve txId) ?_
    intro i _ her _
    cases hw : i.waited with
    | true =>
      refine ⟨Or.inl ?_, ?_⟩
      · simp [timeoutResolve, hw]
      · intro e hE
        simp [timeoutResolve, hw] at hE
        rw [← hE, timeout_code]
        decide
    | false =>
      refine ⟨Or.inr ?_, ?_⟩
      · simp [timeoutResolve, hw]
      · intro e hE
        simp [timeoutResolve, hw, her] at hE

theorem inv_wait_start {s : WaiterState} (txId : String) (hInv : Inv s) :
    Inv (wait_start txId s).2 := by
  unfold wait_start
  cases hlk : mapLookup txId s.promises with
  | none => exact hInv
  | some r =>
    exact inv_modify_preserving hInv _ (fun i => ⟨rfl, rfl, rfl⟩)

theorem wait_finish_state (txId : String) (r : Nat) (s : WaiterState) :
    (wait_finish txId r s).2 = s ∨
    (wait_finish txId r s).2
      = { s with heap := heapModify r (fun i => { i with timerActive := false }) s.heap } := by
  cases hg : s.heap.get? r with
  | none =>
    left
    rw [List.get?_eq_getElem?] at hg
    simp [wait_finish, hg]
  | some info =>
    rw [List.get?_eq_getElem?] at hg
    cases herr : info.error with
    | some e =>
      right
      simp [wait_finish, hg, herr]
    | none =>
      cases hres : info.result with
      | some res =>
        right
        simp [wait_finish, hg, herr, hres]
      | none =>
        right
        simp [wait_finish, hg, herr, hres]

theorem inv_wait_finish {s : WaiterState} (txId : String) (r : Nat) (hInv : Inv s) :
    Inv (wait_finish txId r s).2 := by
  rcases wait_finish_state txId r s with hE | hE
  · rw [hE]
    exact hInv
  · rw [hE]
    exact inv_modify_preserving hInv _ (fun i => ⟨rfl, rfl, rfl⟩)

theorem step_inv {s s2 : WaiterState} (hInv : Inv s) (hs : Step s s2) : Inv s2 := by
  cases hs with
  | setEnabled e s => exact inv_set_enabled e hInv
  | reg txId t s => exact inv_register txId t hInv
  | waitStart txId s => exact inv_wait_start txId hInv
  | waitFinish txId r s => exact inv_wait_finish txId r hInv
  | notifySuccess txId d s => exact inv_notify_success txId d hInv
  | notifyFailure txId d s => exact inv_notify_failure txId d hInv
  | fire txId s => exact inv_on_timeout txId hInv

theorem reachable_inv {s : WaiterState} (h : Reachable s) : Inv s := by
  induction h with
  | init => exact inv_init
  | step _ hs ih => exact step_inv ih hs

/-! ### Computation lemmas for the two halves of `wait` -/

theorem wait_start_fst_none {txId : String} {s : WaiterState}
    (h : mapLookup txId s.promises = none) :
    wait_start txId s = (WaitStart.failed (errorNotRegistered txId), s) := by
  unfold wait_start
  rw [h]

theorem wait_start_blocked {txId : String} {s : WaiterState} {r : Nat}
    (h : mapLookup txId s.promises = some r) :
    wait_start txId s
      = (WaitStart.blocked r,
        { s with heap := heapModify r (fun info => { info with waited := true }) s.heap }) := by
  unfold wait_start
  rw [h]

theorem wait_finish_fst_none {txId : String} {r : Nat} {t : WaiterState}
    (h : t.heap.get? r = none) :
    (wait_finish txId r t).1 = Except.error (errorNoResult txId) := by
  rw [List.get?_eq_getElem?] at h
  simp [wait_finish, h]

theorem wait_finish_snd_none {txId : String} {r : Nat} {t : WaiterState}
    (h : t.heap.get? r = none) :
    (wait_finish txId r t).2 = t := by
  rw [List.get?_eq_getElem?] at h
  simp [wait_finish, h]

theorem wait_finish_fst_error {txId : String} {r : Nat} {t : WaiterState}
    {i : PromiseInfo} {e : GSwapSDKError}
    (hg : t.heap.get? r = some i) (he : i.error = some e) :
    (wait_finish txId r t).1 = Except.error e := by
  rw [List.get?_eq_getElem?] at hg
  simp [wait_finish, hg, he]

theorem wait_finish_fst_ok {txId : String} {r : Nat} {t : WaiterState}
    {i : PromiseInfo} {res : TxResult}
    (hg : t.heap.get? r = some i) (he : i.error = none) (hres : i.result = some res) :
    (wait_finish txId r t).1 = Except.ok res := by
  rw [List.get?_eq_getElem?] at hg
  simp [wait_finish, hg, he, hres]

theorem wait_finish_fst_noresult {txId : String} {r : Nat} {t : WaiterState}
    {i : PromiseInfo}
    (hg : t.heap.get? r = some i) (he : i.error = none) (hres : i.result = none) :
    (wait_finish txId r t).1 = Except.error (errorNoResult txId) := by
  rw [List.get?_eq_getElem?] at hg
  simp [wait_finish, hg, he, hres]

theorem wait_finish_snd_some {txId : String} {r : Nat} {t : WaiterState}
    {i : PromiseInfo} (hg : t.heap.get? r = some i) :
    (wait_finish txId r t).2
      = { t with heap := heapModify r (fun j => { j with timerActive := false }) t.heap } := by
  rw [List.get?_eq_getElem?] at hg
  cases he : i.error with
  | some e => simp [wait_finish, hg, he]
  | none =>
    cases hres : i.result with
    | some res => simp [wait_finish, hg, he, hres]
    | none => simp [wait_finish, hg, he, hres]

theorem notify_success_state {txId : String} {data : MsgData} {s : WaiterState} {r : Nat}
    (hlk : mapLookup txId s.promises = some r) :
    notify_success txId data s
      = { s with promises := mapErase txId s.promises,
                 heap := heapModify r (successResolve txId data) s.heap } := by
  unfold notify_success
  rw [hlk]

theorem on_timeout_state {txId : String} {s : WaiterState} {r : Nat}
    (hlk : mapLookup txId s.promises = some r) :
    on_timeout txId s
      = { s with promises := mapErase txId s.promises,
                 heap := heapModify r (timeoutResolve txId) s.heap } := by
  unfold on_timeout
  rw [hlk]

/-! ### Reachability of the concrete example states -/

theorem reachable_exEnabled : Reachable exEnabled :=
  Reachable.step Reachable.init (Step.setEnabled true initState)

theorem reachable_exRegistered : Reachable exRegistered :=
  Reachable.step reachable_exEnabled (Step.reg "tx1" 50 exEnabled)

theorem reachable_exNotified : Reachable exNotified :=
  Reachable.step reachable_exRegistered (Step.notifySuccess "tx1" exData exRegistered)

theorem reachable_exDisabled : Reachable exDisabled :=
  Reachable.step reachable_exRegistered (Step.setEnabled false exRegistered)

/-! ### The claims -/

/-- Claim C1, counterexample: with tx1 registered while enabled and
`notify_success` delivered before any wait, a subsequent `wait(tx1)` does
not return the synthetic success the claim promises — it raises the
`TRANSACTION_ID_NOT_REGISTERED` error, because `notify_success` pops the
pending entry. -/
theorem c1_notify_before_wait_counterexample :
    (wait_start "tx1" exNotified).1 = WaitStart.failed (errorNotRegistered "tx1") ∧
    (errorNotRegistered "tx1").code = "TRANSACTION_ID_NOT_REGISTERED" := by
  constructor
  · decide
  · rfl

/-- Claim C1, amended: for every txId with a pending entry, delivering
`notify_success(txId, data)` before any wait retires the entry from the
pending map, and a subsequent `wait(txId)` fails immediately with the
`TRANSACTION_ID_NOT_REGISTERED` error instead of blocking; the
notification's payload is written to the retired entry but no longer
reachable through the map. -/
theorem c1_wait_after_notify_fails_not_registered (txId : String) (data : MsgData)
    (s : WaiterState) (r : Nat) (hlk : mapLookup txId s.promises = some r) :
    mapLookup txId (notify_success txId data s).promises = none ∧
    (wait_start txId (notify_success txId data s)).1
      = WaitStart.failed (errorNotRegistered txId) ∧
    (errorNotRegistered txId).code = "TRANSACTION_ID_NOT_REGISTERED" := by
  have hnone : mapLookup txId (notify_success txId data s).promises = none := by
    rw [notify_success_state hlk]
    exact mapLookup_erase_self txId s.promises
  refine ⟨hnone, ?_, rfl⟩
  rw [wait_start_fst_none hnone]

/-- Claim C1, amended, witness at the concrete retired state. -/
theorem c1_wait_after_notify_fails_not_registered_witness :
    mapLookup "tx1" (notify_success "tx1" exData exRegistered).promises = none ∧
    (wait_start "tx1" (notify_success "tx1" exData exRegistered)).1
      = WaitStart.failed (errorNotRegistered "tx1") ∧
    (errorNotRegistered "tx1").code = "TRANSACTION_ID_NOT_REGISTERED" :=
  c1_wait_after_notify_fails_not_registered "tx1" exData exRegistered 0 (by decide)

/-- Claim C2: for every txId with no pending entry — never registered,
already resolved and retired, or registered while disabled — `wait(txId)`
raises the `TRANSACTION_ID_NOT_REGISTERED` error under the lock, before ever
blocking, and leaves the state unchanged. -/
theorem c2_wait_unregistered_fails (txId : String) (s : WaiterState)
    (h : mapLookup txId s.promises = none) :
    wait_start txId s = (WaitStart.failed (errorNotRegistered txId), s) ∧
    (errorNotRegistered txId).code = "TRANSACTION_ID_NOT_REGISTERED" :=
  ⟨wait_start_fst_none h, rfl⟩

/-- Claim C2, witness: waiting on an id never registered with a fresh
coordinator. -/
theorem c2_wait_unregistered_fails_witness :
    wait_start "tx9" initState = (WaitStart.failed (errorNotRegistered "tx9"), initState) ∧
    (errorNotRegistered "tx9").code = "TRANSACTION_ID_NOT_REGISTERED" :=
  c2_wait_unregistered_fails "tx9" initState (by decide)

/-- Claim C3: registering a txId that is still pending raises the
`TRANSACTION_ID_ALREADY_REGISTERED` error and leaves the state — in
particular the existing pending entry — unchanged. -/
theorem c3_register_duplicate_fails (txId : String) (t : Int) (s : WaiterState)
    (r : Nat) (h : mapLookup txId s.promises = some r) :
    register_tx_id txId t s = (some (errorAlreadyRegistered txId), s) ∧
    (errorAlreadyRegistered txId).code = "TRANSACTION_ID_ALREADY_REGISTERED" := by
  refine ⟨?_, rfl⟩
  unfold register_tx_id
  rw [h]

/-- Claim C3, witness: re-registering the pending tx1. -/
theorem c3_register_duplicate_fails_witness :
    register_tx_id "tx1" 99 exRegistered
      = (some (errorAlreadyRegistered "tx1"), exRegistered) ∧
    (errorAlreadyRegistered "tx1").code = "TRANSACTION_ID_ALREADY_REGISTERED" :=
  c3_register_duplicate_fails "tx1" 99 exRegistered 0 (by decide)

/-- Claim C4: in every reachable disabled state, `register_tx_id` returns
normally with the state unchanged — no pending entry is created and no timer
is started — and a subsequent `wait(txId)` raises the
`TRANSACTION_ID_NOT_REGISTERED` error.  (Reachability gives that the pending
map is empty while disabled, so the duplicate check cannot fire.) -/
theorem c4_register_disabled_noop (txId : String) (t : Int) (s : WaiterState)
    (hR : Reachable s) (hd : s.enabled = false) :
    register_tx_id txId t s = (none, s) ∧
    (wait_start txId (register_tx_id txId t s).2).1
      = WaitStart.failed (errorNotRegistered txId) := by
  obtain ⟨h1, _, _, _, _⟩ := reachable_inv hR
  have hlk : mapLookup txId s.promises = none := by
    rw [h1 hd]
    rfl
  have hreg : register_tx_id txId t s = (none, s) := by
    unfold register_tx_id
    rw [hlk, hd]
    rfl
  refine ⟨hreg, ?_⟩
  rw [hreg, wait_start_fst_none hlk]

/-- Claim C4, witness: registering tx2 on the concrete coordinator that was
disabled after tx1 had been pending. -/
theorem c4_register_disabled_noop_witness :
    register_tx_id "tx2" 50 exDisabled = (none, exDisabled) ∧
    (wait_start "tx2" (register_tx_id "tx2" 50 exDisabled).2).1
      = WaitStart.failed (errorNotRegistered "tx2") :=
  c4_register_disabled_noop "tx2" 50 exDisabled reachable_exDisabled (by decide)

/-- Claim C8: `Events.wait` with no connected transport raises the
`SOCKET_CONNECTION_REQUIRED` error and returns the state untouched — it
fails fast before consulting the waiter's pending map or blocking,
whatever that map contains. -/
theorem c8_events_wait_requires_socket (txId : String) (s : EventsState)
    (h : event_socket_connected s = false) :
    events_wait_start txId s = (WaitStart.failed socket_connection_required_error, s) ∧
    socket_connection_required_error.code = "SOCKET_CONNECTION_REQUIRED" := by
  refine ⟨?_, rfl⟩
  unfold events_wait_start
  rw [h]
  rfl

/-- Claim C8, witness: waiting with no transport ever connected, while the
waiter even holds a pending entry. -/
theorem c8_events_wait_requires_socket_witness :
    events_wait_start "tx1"
        { globalSocketClient := none, globalWaitHelper := exRegistered }
      = (WaitStart.failed socket_connection_required_error,
        { globalSocketClient := none, globalWaitHelper := exRegistered }) ∧
    socket_connection_required_error.code = "SOCKET_CONNECTION_REQUIRED" :=
  c8_events_wait_requires_socket "tx1"
    { globalSocketClient := none, globalWaitHelper := exRegistered } (by decide)

/-- Claim C5: for a pending, waited-on txId, a `notify_success(txId, data)`
arriving before timer expiry (the entry is still in the pending map) sets the
entry's event with a success outcome, and the released `wait` returns exactly
the notification's data: its `Data` body and its transaction hash. -/
theorem c5_notify_success_delivers_data (txId hsh : String) (d : DataBody)
    (data : MsgData) (s : WaiterState) (r : Nat) (info : PromiseInfo)
    (hlk : mapLookup txId s.promises = some r)
    (hg : s.heap.get? r = some info)
    (_hw : info.waited = true)
    (her : info.error = none)
    (hid : data.transactionId = some hsh)
    (hdf : data.dataField = some d) :
    (notify_success txId data s).heap.get? r = some (successResolve txId data info) ∧
    (successResolve txId data info).eventSet = true ∧
    (wait_finish txId r (notify_success txId data s)).1
      = Except.ok { txId := txId, transactionHash := hsh, dataBody := d } := by
  have hcell : (notify_success txId data s).heap.get? r
      = some (successResolve txId data info) := by
    rw [notify_success_state hlk]
    exact heapModify_get?_eq _ hg
  refine ⟨hcell, rfl, ?_⟩
  have hres : (successResolve txId data info).result
      = some { txId := txId, transactionHash := hsh, dataBody := d } := by
    simp [successResolve, hid, hdf]
  have herr2 : (successResolve txId data info).error = none := her
  rw [wait_finish_fst_ok hcell herr2 hres]

/-- Claim C5, witness: the concrete waited-on tx1 notified with a hash and
an amount payload. -/
theorem c5_notify_success_delivers_data_witness :
    (notify_success "tx1" exData exWaited).heap.get? 0
      = some (successResolve "tx1" exData { waited := true, timerActive := true }) ∧
    (successResolve "tx1" exData { waited := true, timerActive := true }).eventSet = true ∧
    (wait_finish "tx1" 0 (notify_success "tx1" exData exWaited)).1
      = Except.ok { txId := "tx1", transactionHash := "h1", dataBody := [("amount", "5")] } :=
  c5_notify_success_delivers_data "tx1" "h1" [("amount", "5")] exData exWaited 0
    { waited := true, timerActive := true } (by decide) (by decide) rfl rfl rfl rfl

/-- Claim C6: when the timer fires for a still-pending entry, the entry is
removed from the pending map and its event is set; a waited entry gets the
`TRANSACTION_WAIT_TIMEOUT` failure, an un-waited one gets the synthetic
accepted-success payload carrying the transaction id as both id and hash
with an empty data body; afterwards a fresh registration of the same txId
raises no error. -/
theorem c6_timer_fire_retires_entry (txId : String) (t : Int) (s : WaiterState)
    (r : Nat) (info : PromiseInfo)
    (hlk : mapLookup txId s.promises = some r)
    (hg : s.heap.get? r = some info) :
    mapLookup txId (on_timeout txId s).promises = none ∧
    (on_timeout txId s).heap.get? r = some (timeoutResolve txId info) ∧
    (timeoutResolve txId info).eventSet = true ∧
    (info.waited = true →
      (timeoutResolve txId info).error = some (transaction_wait_timeout_error txId) ∧
      (transaction_wait_timeout_error txId).code = "TRANSACTION_WAIT_TIMEOUT") ∧
    (info.waited = false →
      (timeoutResolve txId info).result
        = some { txId := txId, transactionHash := txId, dataBody := [] }) ∧
    (register_tx_id txId t (on_timeout txId s)).1 = none := by
  have hnone : mapLookup txId (on_timeout txId s).promises = none := by
    rw [on_timeout_state hlk]
    exact mapLookup_erase_self txId s.promises
  refine ⟨hnone, ?_, ?_, ?_, ?_, ?_⟩
  · rw [on_timeout_state hlk]
    exact heapModify_get?_eq _ hg
  · cases hw : info.waited <;> simp [timeoutResolve, hw]
  · intro hw
    exact ⟨by simp [timeoutResolve, hw], rfl⟩
  · intro hw
    simp [timeoutResolve, hw]
  · unfold register_tx_id
    rw [hnone]
    cases (on_timeout txId s).enabled <;> rfl

/-- Claim C6, witness: the timer firing on the concrete pending, un-waited
tx1 entry. -/
theorem c6_timer_fire_retires_entry_witness :
    mapLookup "tx1" (on_timeout "tx1" exRegistered).promises = none ∧
    (on_timeout "tx1" exRegistered).heap.get? 0
      = some (timeoutResolve "tx1" { timerActive := true }) ∧
    (timeoutResolve "tx1" { timerActive := true }).eventSet = true ∧
    (({ timerActive := true } : PromiseInfo).waited = true →
      (timeoutResolve "tx1" { timerActive := true }).error
        = some (transaction_wait_timeout_error "tx1") ∧
      (transaction_wait_timeout_error "tx1").code = "TRANSACTION_WAIT_TIMEOUT") ∧
    (({ timerActive := true } : PromiseInfo).waited = false →
      (timeoutResolve "tx1" { timerActive := true }).result
        = some { txId := "tx1", transactionHash := "tx1", dataBody := [] }) ∧
    (register_tx_id "tx1" 50 (on_timeout "tx1" exRegistered)).1 = none :=
  c6_timer_fire_retires_entry "tx1" 50 exRegistered 0 { timerActive := true }
    (by decide) (by decide)

/-- Claim C7: in every reachable state, `set_enabled(False)` leaves the
pending map empty, and every formerly pending entry's timer is cancelled,
its outcome is set to a `TRANSACTION_WAIT_FAILED` failure, and its event is
set — so every blocked waiter is released with a failure rather than
deadlocked. -/
theorem c7_disable_resolves_all_pending (s : WaiterState) (hR : Reachable s) :
    (set_enabled false s).promises = [] ∧
    ∀ p, p ∈ s.promises → ∃ i2,
      (set_enabled false s).heap.get? p.2 = some i2 ∧
      i2.timerActive = false ∧ i2.eventSet = true ∧
      ∃ e, i2.error = some e ∧ e.code = "TRANSACTION_WAIT_FAILED" := by
  refine ⟨rfl, ?_⟩
  intro p hp
  obtain ⟨_, _, h3, _, _⟩ := reachable_inv hR
  obtain ⟨ip, hgp, _, _, _⟩ := h3 p hp
  have hmem : (p.1, p.2) ∈ s.promises := hp
  obtain ⟨i2, hc, hshape⟩ := resolveAllDisabled_mem s.promises s.heap p.1 p.2 hmem
    (by rw [hgp]; rfl)
  obtain ⟨ht, he, hex⟩ := hshape
  exact ⟨i2, hc, ht, he, hex⟩

/-- Claim C7, witness: disabling the concrete coordinator with tx1
pending. -/
theorem c7_disable_resolves_all_pending_witness :
    (set_enabled false exRegistered).promises = [] ∧
    ∀ p, p ∈ exRegistered.promises → ∃ i2,
      (set_enabled false exRegistered).heap.get? p.2 = some i2 ∧
      i2.timerActive = false ∧ i2.eventSet = true ∧
      ∃ e, i2.error = some e ∧ e.code = "TRANSACTION_WAIT_FAILED" :=
  c7_disable_resolves_all_pending exRegistered reachable_exRegistered

/-- Claim C9: in every reachable state, an info object whose event is set
carries a written outcome (an error or a result), entries still in the
pending map have their event unset (so a release happens at most once, in
the step that retires the entry), and a waiter released from `wait` never
hits the internal no-result branch: `wait_finish` on a released entry does
not produce the `TRANSACTION_WAIT_NO_RESULT` error. -/
theorem c9_signal_released_only_after_outcome (s : WaiterState) (hR : Reachable s) :
    (∀ r i, s.heap.get? r = some i → i.eventSet = true →
      (i.error.isSome ∨ i.result.isSome)) ∧
    (∀ p, p ∈ s.promises → ∃ i, s.heap.get? p.2 = some i ∧ i.eventSet = false) ∧
    (∀ txId r i, s.heap.get? r = some i → i.eventSet = true →
      (wait_finish txId r s).1 ≠ Except.error (errorNoResult txId)) := by
  obtain ⟨_, _, h3, h4, h5⟩ := reachable_inv hR
  refine ⟨h4, ?_, ?_⟩
  · intro p hp
    obtain ⟨i, hgp, hep, _, _⟩ := h3 p hp
    exact ⟨i, hgp, hep⟩
  · intro txId r i hg he hEq
    cases herr : i.error with
    | some e =>
      rw [wait_finish_fst_error hg herr] at hEq
      injection hEq with hE
      exact h5 r i e hg herr (by rw [hE]; rfl)
    | none =>
      rcases h4 r i hg he with hL | hres
      · rw [herr] at hL
        cases hL
      · obtain ⟨res, hres2⟩ := Option.isSome_iff_exists.mp hres
        rw [wait_finish_fst_ok hg herr hres2] at hEq
        cases hEq

/-- Claim C9, witness: the concrete state in which tx1 was notified and
retired; its info object has the event set with a written result. -/
theorem c9_signal_released_only_after_outcome_witness :
    (∀ r i, exNotified.heap.get? r = some i → i.eventSet = true →
      (i.error.isSome ∨ i.result.isSome)) ∧
    (∀ p, p ∈ exNotified.promises → ∃ i,
      exNotified.heap.get? p.2 = some i ∧ i.eventSet = false) ∧
    (∀ txId r i, exNotified.heap.get? r = some i → i.eventSet = true →
      (wait_finish txId r exNotified).1 ≠ Except.error (errorNoResult txId)) :=
  c9_signal_released_only_after_outcome exNotified reachable_exNotified

/-- Claim C10: a second `wait` on a still-pending entry does not raise
`NotRegistered`: both calls reach the blocked state on the same heap cell,
the cell ends up marked waited, and once the entry resolves, repeated
`wait_finish` calls observe the identical outcome (the first one only
cancels the timer, which the outcome does not depend on). -/
theorem c10_second_wait_shares_entry (txId : String) (s : WaiterState)
    (r : Nat) (info : PromiseInfo)
    (hlk : mapLookup txId s.promises = some r)
    (hg : s.heap.get? r = some info) :
    (wait_start txId s).1 = WaitStart.blocked r ∧
    (wait_start txId ((wait_start txId s).2)).1 = WaitStart.blocked r ∧
    ((wait_start txId ((wait_start txId s).2)).2).heap.get? r
      = some { info with waited := true } ∧
    (∀ u : WaiterState, (wait_finish txId r ((wait_finish txId r u).2)).1
      = (wait_finish txId r u).1) := by
  have hb1 := wait_start_blocked hlk
  have hlk1 : mapLookup txId ((wait_start txId s).2).promises = some r := by
    rw [hb1]
    exact hlk
  have hb2 := wait_start_blocked hlk1
  have hcell1 : ((wait_start txId s).2).heap.get? r
      = some { info with waited := true } := by
    rw [hb1]
    exact heapModify_get?_eq _ hg
  refine ⟨by rw [hb1], by rw [hb2], ?_, ?_⟩
  · rw [hb2,
      @heapModify_get?_eq ((wait_start txId s).2).heap r { info with waited := true }
        (fun j => { j with waited := true }) hcell1]
  · intro u
    cases hgu : u.heap.get? r with
    | none =>
      rw [wait_finish_snd_none hgu]
    | some iu =>
      have hcell2 : ((wait_finish txId r u).2).heap.get? r
          = some { iu with timerActive := false } := by
        rw [wait_finish_snd_some hgu]
        exact heapModify_get?_eq _ hgu
      cases herr : iu.error with
      | some e =>
        rw [wait_finish_fst_error hgu herr, wait_finish_fst_error hcell2 herr]
      | none =>
        cases hres : iu.result with
        | some res =>
          rw [wait_finish_fst_ok hgu herr hres, wait_finish_fst_ok hcell2 herr hres]
        | none =>
          rw [wait_finish_fst_noresult hgu herr hres,
            wait_finish_fst_noresult hcell2 herr hres]

/-- Claim C10, witness: two waits on the concrete pending tx1 entry. -/
theorem c10_second_wait_shares_entry_witness :
    (wait_start "tx1" exRegistered).1 = WaitStart.blocked 0 ∧
    (wait_start "tx1" ((wait_start "tx1" exRegistered).2)).1 = WaitStart.blocked 0 ∧
    ((wait_start "tx1" ((wait_start "tx1" exRegistered).2)).2).heap.get? 0
      = some { ({ timerActive := true } : PromiseInfo) with waited := true } ∧
    (∀ u : WaiterState, (wait_finish "tx1" 0 ((wait_finish "tx1" 0 u).2)).1
      = (wait_finish "tx1" 0 u).1) :=
  c10_second_wait_shares_entry "tx1" exRegistered 0 { timerActive := true }
    (by decide) (by decide)

end GSwap
